import Mathlib

/-!
Verification of the NDVI computation and analysis-storage pipeline of the
Satellite-Basic repository (`app/services/vegetation_analysis.py`,
`app/models/vegetation.py`).

Floating-point values are modelled as rationals; the NaN marker of the
source (`np.nan`) is modelled as `none` in `Option ℚ`.  NumPy's
2-dimensional arrays are modelled as lists of rows, with NumPy's
broadcasting, `out=`/`where=` division, `squeeze` and `nan_to_num`
semantics made explicit.  Python exceptions are modelled by the `PyExc`
type: the constructors record which exception class a failing operation
raises.
-/

set_option autoImplicit false

namespace SatelliteBasic

/-- A floating-point sample: `none` models NaN ("invalid"/"no data"). -/
abbrev FVal := Option ℚ

/-- A 2-D numeric grid (NumPy array), row major. -/
abbrev Grid := List (List FVal)

/-- The exception classes relevant to the pipeline.  `valueError` is what
NumPy raises on broadcast failures, wrong `out=` shapes and zero-size
reductions, and what the source raises explicitly on the `ndim != 2`
checks.  `shapeMismatchError` and `emptyDataError` are classes the spec
postulates; the source defines no such classes, so no operation modelled
from the source ever produces them. -/
inductive PyExc where
  | valueError
  | indexError
  | connectionError
  | shapeMismatchError
  | emptyDataError
  deriving DecidableEq, Repr

namespace Grid

/-- Number of rows (NumPy `shape[0]`). -/
def rows (g : Grid) : ℕ := g.length

/-- Number of columns (NumPy `shape[1]`); grids modelling NumPy arrays are
rectangular, so the first row's length is the column count. -/
def cols (g : Grid) : ℕ := (g.headD []).length

/-- Rectangularity: every row has the common column count.  NumPy arrays
satisfy this by construction. -/
def Rect (g : Grid) : Prop := ∀ row ∈ g, row.length = g.cols

instance (g : Grid) : Decidable (Rect g) := by
  unfold Rect; infer_instance

/-- Read the sample at row `i`, column `j`. -/
def get (g : Grid) (i j : ℕ) : FVal := (g.getD i []).getD j none

/-- Row-major flattening (NumPy `flatten`). -/
def flat (g : Grid) : List FVal := g.foldr (fun row acc => row ++ acc) []

end Grid

/-- NumPy broadcast of one dimension: equal sizes broadcast to the common
size, a size-1 dimension stretches to the other, anything else fails. -/
def bcDim (a b : ℕ) : Option ℕ :=
  if a = b then some a else if a = 1 then some b else if b = 1 then some a else none

/-- Read a pixel of `g` as the broadcast of `g` to a larger shape reads it:
a size-1 dimension always reads index 0. -/
def bget (g : Grid) (i j : ℕ) : FVal :=
  g.get (if g.rows = 1 then 0 else i) (if g.cols = 1 then 0 else j)

/-- IEEE addition on the model: NaN propagates. -/
def fadd (a b : FVal) : FVal :=
  match a, b with
  | some x, some y => some (x + y)
  | _, _ => none

/-- IEEE subtraction on the model: NaN propagates. -/
def fsub (a b : FVal) : FVal :=
  match a, b with
  | some x, some y => some (x - y)
  | _, _ => none

/-- Raw division; in the source this is only evaluated where the `where=`
mask is true, i.e. where the denominator compared `!= 0`. NaN propagates. -/
def fdivRaw (a b : FVal) : FVal :=
  match a, b with
  | some x, some y => some (x / y)
  | _, _ => none

/-- NumPy elementwise `v != 0`: true for NaN (NaN compares unequal to 0). -/
def fneq0 (a : FVal) : Bool :=
  match a with
  | some x => decide (x ≠ 0)
  | none => true

/-- NumPy elementwise binary operation with broadcasting; raises
`ValueError` when the shapes are not broadcast-compatible. -/
def ewise (op : FVal → FVal → FVal) (g h : Grid) : Except PyExc Grid :=
  match bcDim g.rows h.rows, bcDim g.cols h.cols with
  | some R, some C =>
      .ok ((List.range R).map fun i => (List.range C).map fun j =>
        op (bget g i j) (bget h i j))
  | _, _ => .error .valueError

/-- `np.zeros_like(g)`. -/
def zeros_like (g : Grid) : Grid :=
  (List.range g.rows).map fun _ => (List.range g.cols).map fun _ => some 0

/-- `np.divide(a, b, out=out, where=(b != 0))`: where the denominator is
nonzero (or NaN, which compares `!= 0`) the quotient is computed, elsewhere
the pixel keeps the value of `out`; the output shape must be the broadcast
shape of the operands, otherwise NumPy raises `ValueError`. -/
def np_divide_out_where (a b out : Grid) : Except PyExc Grid :=
  match bcDim a.rows b.rows, bcDim a.cols b.cols with
  | some R, some C =>
      if out.rows = R ∧ out.cols = C then
        .ok ((List.range R).map fun i => (List.range C).map fun j =>
          if fneq0 (bget b i j) then fdivRaw (bget a i j) (bget b i j)
          else out.get i j)
      else .error .valueError
  | _, _ => .error .valueError

/-- `np.where(np.isfinite(g), g, np.nan)`: over the rational model every
number is finite, so only NaN (already `none`) maps to NaN. -/
def finiteClean (g : Grid) : Grid :=
  g.map fun row => row.map fun v =>
    match v with
    | some q => some q
    | none => none

/-- The numeric core of `compute_ndvi` (after both bands are fetched and
decoded): `np.divide(nir - red, nir + red, out=np.zeros_like(nir),
where=(nir + red) != 0)` followed by the `isfinite` cleanup. -/
def compute_ndvi (red nir : Grid) : Except PyExc Grid := do
  let num ← ewise fsub nir red
  let den ← ewise fadd nir red
  let nd ← np_divide_out_where num den (zeros_like nir)
  .ok (finiteClean nd)

/-- The statistics dictionary `{min, max, mean}`. -/
structure Stats where
  min : ℚ
  max : ℚ
  mean : ℚ
  deriving DecidableEq, Repr

/-- The valid (non-NaN) samples of a grid, in row-major order: models
`ndvi.flatten()[~np.isnan(...)]`. -/
def validVals (g : Grid) : List ℚ := g.flat.filterMap id

/-- `compute_statistics`: min/max/mean over the valid samples.  On a grid
with no valid sample, `np.min` of the empty selection raises `ValueError`
("zero-size array to reduction operation"), which the source logs and
re-raises. -/
def compute_statistics (g : Grid) : Except PyExc Stats :=
  match validVals g with
  | [] => .error .valueError
  | x :: xs =>
      .ok ⟨xs.foldl Min.min x, xs.foldl Max.max x,
           (x :: xs).sum / ((x :: xs).length : ℚ)⟩

/-! ### Analysis storage (`store_analysis`, `get_analysis`, `_execute_with_retry`) -/

/-- Analysis identifiers (`str(uuid.uuid4())` in the source); modelled as
numbers supplied by the environment, fresh per attempt. -/
abbrev Ident := ℕ

/-- The `metadata` dictionary passed to `store_analysis`: the keys the
source reads (`name`, `bbox`, `red_url`, `nir_url`), each possibly absent. -/
structure Metadata where
  name : Option String
  bbox : Option (List ℚ)
  red_url : Option String
  nir_url : Option String
  deriving DecidableEq, Repr

/-- The statistics dictionary as serialized into the `ndvi_stats` JSON
column: the keys "min", "max", "mean" with numeric values. -/
def statsDict (s : Stats) : List (String × ℚ) :=
  [("min", s.min), ("max", s.max), ("mean", s.mean)]

/-- Python `dict.get(k)` on a string-keyed dictionary of numbers. -/
def lookupKey (kvs : List (String × ℚ)) (k : String) : Option ℚ :=
  (kvs.find? fun p => p.1 == k).map Prod.snd

/-- A row of the `ndvi_analyses` table (`NDVIAnalysis` in
`app/models/vegetation.py`): id, name, bbox, geometry polygon, the
`ndvi_stats` JSON, and the two source URLs. -/
structure DBRecord where
  id : Ident
  name : String
  bbox : List ℚ
  geometry : List (ℚ × ℚ)
  ndvi_stats : List (String × ℚ)
  red_url : Option String
  nir_url : Option String
  deriving DecidableEq, Repr

/-- The state of a `VegetationAnalysis` instance: the in-memory
`self._analyses` dictionary (newest entry first) and the optional
database session's committed rows. -/
structure SvcState where
  analyses : List (Ident × Grid × Metadata)
  db : Option (List DBRecord)
  deriving DecidableEq, Repr

/-- Python truthiness of `metadata.get('bbox')`: absent or empty is falsy. -/
def truthyOptList (b : Option (List ℚ)) : Bool :=
  match b with
  | some l => !l.isEmpty
  | none => false

/-- Python truthiness of `metadata.get('name')`: absent or empty is falsy. -/
def truthyOptStr (s : Option String) : Bool :=
  match s with
  | some s => !s.isEmpty
  | none => false

/-- `np.squeeze(g).ndim` for a 2-D grid: `squeeze` drops each size-1 axis. -/
def squeezeNdim (g : Grid) : ℕ :=
  (if g.rows = 1 then 0 else 1) + (if g.cols = 1 then 0 else 1)

/-- `np.nan_to_num(g, nan=-9999)`: every NaN becomes the sentinel -9999. -/
def nan_to_num (g : Grid) : Grid :=
  g.map fun row => row.map fun v => some (v.getD (-9999))

/-- Python list indexing `b[i]`: raises `IndexError` out of range. -/
def pyIndex (l : List ℚ) (i : ℕ) : Except PyExc ℚ :=
  match l[i]? with
  | some q => .ok q
  | none => .error .indexError

/-- The shapely `Polygon` built from `bbox[0..3]` in `store_analysis`. -/
def mkPolygon (b : List ℚ) : Except PyExc (List (ℚ × ℚ)) := do
  let x0 ← pyIndex b 0
  let y0 ← pyIndex b 1
  let x1 ← pyIndex b 2
  let y1 ← pyIndex b 3
  .ok [(x0, y0), (x1, y0), (x1, y1), (x0, y1), (x0, y0)]

/-- Closed form of `mkPolygon` on a bbox with at least four entries. -/
def polyOf (b : List ℚ) : List (ℚ × ℚ) :=
  [(b.getD 0 0, b.getD 1 0), (b.getD 2 0, b.getD 1 0), (b.getD 2 0, b.getD 3 0),
   (b.getD 0 0, b.getD 3 0), (b.getD 0 0, b.getD 1 0)]

/-- One attempt of the `_store` closure in `store_analysis`: the
`squeeze`/`ndim` check, the NaN → -9999 substitution, the in-memory cache
insertion, and — when a database session is present and `bbox` and `name`
are truthy — statistics computation, polygon construction and the
committed insert.  Failures after the cache insertion leave the cache
entry in place, exactly as the Python dictionary mutation does. -/
def storeAttempt (st : SvcState) (newId : Ident) (g : Grid) (md : Metadata) :
    SvcState × Except PyExc Ident :=
  if squeezeNdim g ≠ 2 then (st, .error .valueError)
  else
    let g2 := nan_to_num g
    let st1 : SvcState := { st with analyses := (newId, g2, md) :: st.analyses }
    match st.db with
    | none => (st1, .ok newId)
    | some recs =>
        if truthyOptList md.bbox && truthyOptStr md.name then
          match compute_statistics g2 with
          | .error e => (st1, .error e)
          | .ok s =>
              match mkPolygon (md.bbox.getD []) with
              | .error e => (st1, .error e)
              | .ok poly =>
                  ({ analyses := st1.analyses,
                     db := some (recs ++ [{ id := newId, name := md.name.getD "",
                                            bbox := md.bbox.getD [], geometry := poly,
                                            ndvi_stats := statsDict s,
                                            red_url := md.red_url,
                                            nir_url := md.nir_url }]) },
                   .ok newId)
        else (st1, .ok newId)

/-- The retry loop of `_execute_with_retry` specialised to `_store`: up to
`fuel` attempts, a fresh identifier per attempt (the uuid is generated
inside `_store`), any exception retried until the last attempt, whose
exception is surfaced; the session rollback between attempts discards
nothing here because `storeAttempt` only ever commits atomically. -/
def storeLoop (g : Grid) (md : Metadata) (ids : ℕ → Ident) :
    ℕ → ℕ → SvcState → SvcState × Except PyExc Ident
  | 0, _, st => (st, .error .valueError)
  | 1, k, st => storeAttempt st (ids k) g md
  | n+2, k, st =>
      match storeAttempt st (ids k) g md with
      | (st', .ok i) => (st', .ok i)
      | (st', .error _) => storeLoop g md ids (n+1) (k+1) st'

/-- `store_analysis`: the `_store` closure run through
`_execute_with_retry` (max_retries = 3). -/
def store_analysis (st : SvcState) (ids : ℕ → Ident) (g : Grid) (md : Metadata) :
    SvcState × Except PyExc Ident :=
  storeLoop g md ids 3 0 st

/-- The metadata dictionary returned by the database path of
`get_analysis`: `{name, bbox, stats}`. -/
structure DbMeta where
  name : String
  bbox : List ℚ
  stats : List (String × ℚ)
  deriving DecidableEq, Repr

/-- A value returned by `get_analysis`: the cache path returns the
full-resolution grid with the original metadata dictionary, the database
path would return a reconstructed grid with a `{name, bbox, stats}`
dictionary. -/
inductive Retrieved where
  | fromCache (ndvi_array : Grid) (metadata : Metadata)
  | fromDb (ndvi_array : Grid) (metadata : DbMeta)
  deriving DecidableEq, Repr

/-- `analysis_id in self._analyses` followed by the dictionary read. -/
def lookupCache (st : SvcState) (i : Ident) : Option (Grid × Metadata) :=
  (st.analyses.find? fun e => e.1 == i).map fun e => e.2

/-- `db.query(NDVIAnalysis).filter(NDVIAnalysis.id == analysis_id).first()`. -/
def lookupDb (recs : List DBRecord) (i : Ident) : Option DBRecord :=
  recs.find? fun r => r.id == i

/-- `np.array(db_analysis.ndvi_stats.get("ndvi_array", []), dtype=np.float32)`
followed by `np.squeeze` and the `ndim != 2` check in `get_analysis`.  The
statistics dictionaries written by `store_analysis` hold only numbers under
the keys "min"/"max"/"mean": when "ndvi_array" is absent the default `[]`
yields a 1-dimensional empty array (shape `(0,)`, unchanged by `squeeze`),
and were the key present its numeric value would yield a 0-dimensional
array; both fail the 2-dimensional check, raising `ValueError`. -/
def reconstructGrid (stats : List (String × ℚ)) : Except PyExc Grid :=
  match lookupKey stats "ndvi_array" with
  | none => .error .valueError
  | some _ => .error .valueError

/-- `get_analysis`: in-memory cache first, then the database fallback,
`None` when the identifier is in neither. -/
def get_analysis (st : SvcState) (i : Ident) : Except PyExc (Option Retrieved) :=
  match lookupCache st i with
  | some (g, md) => .ok (some (.fromCache g md))
  | none =>
      match st.db with
      | none => .ok none
      | some recs =>
          match lookupDb recs i with
          | none => .ok none
          | some r =>
              match reconstructGrid r.ndvi_stats with
              | .error e => .error e
              | .ok g => .ok (some (.fromDb g ⟨r.name, r.bbox, r.ndvi_stats⟩))

/-- `retry_delay = 1` in `_execute_with_retry`: the backoff is fixed. -/
def retry_delay : ℚ := 1

/-- `max_retries = 3` in `_execute_with_retry`. -/
def max_retries : ℕ := 3

/-- Observable trace of `_execute_with_retry`: the surfaced result, how
many times the operation was attempted, how many session rollbacks were
issued, and the sleeps performed between attempts. -/
structure RetryTrace (α : Type) where
  result : Except PyExc α
  attempts : ℕ
  rollbacks : ℕ
  sleeps : List ℚ
  deriving Repr

/-- The loop of `_execute_with_retry` over an operation whose outcome may
depend on the attempt number: any exception before the last attempt leads
to a rollback (when a session is present), a fixed-delay sleep and a
retry; the last attempt's exception is re-raised. -/
def retryGo {α : Type} (op : ℕ → Except PyExc α) (hasDb : Bool) :
    ℕ → ℕ → RetryTrace α
  | 0, _ => ⟨.error .valueError, 0, 0, []⟩
  | 1, k =>
      match op k with
      | .ok a => ⟨.ok a, 1, 0, []⟩
      | .error e => ⟨.error e, 1, 0, []⟩
  | n+2, k =>
      match op k with
      | .ok a => ⟨.ok a, 1, 0, []⟩
      | .error _ =>
          let t := retryGo op hasDb (n+1) (k+1)
          ⟨t.result, t.attempts + 1, t.rollbacks + (if hasDb then 1 else 0),
           retry_delay :: t.sleeps⟩

/-- `_execute_with_retry`. -/
def execute_with_retry {α : Type} (op : ℕ → Except PyExc α) (hasDb : Bool) :
    RetryTrace α :=
  retryGo op hasDb max_retries 0

/-! ### Named concrete inputs used by witnesses and counterexamples -/

/-- A 10×10 red band of ones. -/
def exRed10x10 : Grid := List.replicate 10 (List.replicate 10 (some 1))

/-- A 10×11 NIR band of twos: broadcast-incompatible with `exRed10x10`. -/
def exNir10x11 : Grid := List.replicate 10 (List.replicate 11 (some 2))

/-- A 1×2 red band: differs in shape from `exNir2x2` yet broadcasts. -/
def exRed1x2 : Grid := [[some 1, some 1]]

/-- A 2×2 NIR band of threes. -/
def exNir2x2 : Grid := [[some 3, some 3], [some 3, some 3]]

/-- The spec's concrete scenario: red all 100. -/
def exRed100 : Grid := [[some 100, some 100], [some 100, some 100]]

/-- The spec's concrete scenario: NIR all 300. -/
def exNir300 : Grid := [[some 300, some 300], [some 300, some 300]]

/-- A 1×1 red band holding 0: a non-illuminated pixel. -/
def exRedZero : Grid := [[some 0]]

/-- A 1×1 NIR band holding 5. -/
def exNirFive : Grid := [[some 5]]

/-- A 1×1 red band holding 3. -/
def exRedThree : Grid := [[some 3]]

/-- A 1×1 NIR band holding -3: the denominator 3 + (-3) is exactly zero. -/
def exNirNeg3 : Grid := [[some (-3)]]

/-- A 2×2 grid in which every pixel is invalid. -/
def exAllNaN : Grid := [[none, none], [none, none]]

/-- A 2×2 grid with three valid pixels and one invalid pixel. -/
def exMixed : Grid := [[some 1, none], [some 0, some 1]]

/-- A service state with an empty cache and an empty database table. -/
def emptySvc : SvcState := { analyses := [], db := some [] }

/-- Fresh identifiers handed out by the environment: 100, 101, 102, …. -/
def idsEx : ℕ → Ident := fun k => 100 + k

/-- Metadata with a truthy name and a 4-entry truthy bbox. -/
def mdEx : Metadata :=
  { name := some "a", bbox := some [0, 0, 1, 1], red_url := none, nir_url := none }

/-- A 2×2 index grid with one invalid pixel, to be stored. -/
def gStore : Grid := [[some (1/2), none], [some (1/2), some (1/2)]]

/-- A 2×2 index grid with no invalid pixel, to be stored. -/
def gStoreW : Grid := [[some 0, some 1], [some 1, some 0]]

/-- A 2×2 grid holding a value below -9999 next to an invalid pixel. -/
def gBig : Grid := [[some (-20000), none], [some 0, some 0]]

/-- A database row shaped exactly like those `store_analysis` writes. -/
def recDb : DBRecord :=
  { id := 7, name := "b", bbox := [0, 0, 1, 1],
    geometry := [(0, 0), (1, 0), (1, 1), (0, 1), (0, 0)],
    ndvi_stats := [("min", 0), ("max", 1), ("mean", 1/2)],
    red_url := none, nir_url := none }

/-- A second such row, under a different identifier. -/
def recDb2 : DBRecord :=
  { id := 9, name := "c", bbox := [0, 0, 2, 2],
    geometry := [(0, 0), (2, 0), (2, 2), (0, 2), (0, 0)],
    ndvi_stats := [("min", -1), ("max", 1), ("mean", 0)],
    red_url := none, nir_url := none }

/-- A state whose cache holds identifier 5 and which has no db session. -/
def stCache : SvcState := { analyses := [(5, gStoreW, mdEx)], db := none }

/-- A state with an empty cache and one durable row (identifier 7). -/
def stDbOnly : SvcState := { analyses := [], db := some [recDb] }

/-- A state with an empty cache and one durable row (identifier 9). -/
def stDb2 : SvcState := { analyses := [], db := some [recDb2] }

/-- An operation failing every attempt with a transient connection error. -/
def opConnFail : ℕ → Except PyExc ℕ := fun _ => .error .connectionError

/-- An operation failing every attempt with a non-transient input-validation
error (a `ValueError`), which per the spec's retry policy should not be
retried at all. -/
def opValueErr : ℕ → Except PyExc ℕ := fun _ => .error .valueError

end SatelliteBasic

namespace SatelliteBasic

/-! ### General lemmas about the NumPy model -/

theorem bcDim_self (a : ℕ) : bcDim a a = some a := by simp [bcDim]

theorem bcDim_symm_none {a b : ℕ} (h : bcDim a b = none) : bcDim b a = none := by
  unfold bcDim at h ⊢
  split_ifs at h ⊢ <;> simp_all

theorem ewise_error (op : FVal → FVal → FVal) {g h : Grid}
    (hbad : bcDim g.rows h.rows = none ∨ bcDim g.cols h.cols = none) :
    ewise op g h = .error .valueError := by
  unfold ewise
  rcases hbad with hb | hb
  · rw [hb]
  · rcases hfst : bcDim (Grid.rows g) (Grid.rows h) with _ | R
    · rfl
    · rw [hb]

theorem rangeMap_rows (R C : ℕ) (f : ℕ → ℕ → FVal) :
    Grid.rows ((List.range R).map fun i => (List.range C).map fun j => f i j) = R := by
  simp [Grid.rows]

theorem rangeMap_cols {R : ℕ} (C : ℕ) (f : ℕ → ℕ → FVal) (hR : 0 < R) :
    Grid.cols ((List.range R).map fun i => (List.range C).map fun j => f i j) = C := by
  cases R with
  | zero => omega
  | succ n => simp [Grid.cols, List.range_succ_eq_map]

theorem rangeMap_get {R C i j : ℕ} (f : ℕ → ℕ → FVal) (hi : i < R) (hj : j < C) :
    Grid.get ((List.range R).map fun i => (List.range C).map fun j => f i j) i j = f i j := by
  unfold Grid.get
  simp [List.getD_eq_getElem?_getD, List.getElem?_map, List.getElem?_range hi,
        List.getElem?_range hj]

theorem bget_eq_get {g : Grid} {i j : ℕ} (hi : i < g.rows) (hj : j < g.cols) :
    bget g i j = g.get i j := by
  unfold bget
  have h1 : (if g.rows = 1 then 0 else i) = i := by split <;> omega
  have h2 : (if g.cols = 1 then 0 else j) = j := by split <;> omega
  rw [h1, h2]

theorem finiteClean_id (g : Grid) : finiteClean g = g := by
  unfold finiteClean
  have h : ∀ row : List FVal,
      (row.map fun v => match v with | some q => some q | none => none) = row := by
    intro row
    induction row with
    | nil => rfl
    | cons a t ih => cases a <;> simp [ih]
  simp [h]

/-- On equal-shape inputs with at least one row, `compute_ndvi` succeeds, the
output has the common shape, and every in-range pixel is the raw quotient
where the denominator compares `!= 0` and the `out`-array zero where the
denominator compares `== 0`. -/
theorem compute_ndvi_pix {red nir : Grid} (hr : red.rows = nir.rows)
    (hc : red.cols = nir.cols) (h0 : 0 < nir.rows) :
    ∃ g : Grid, compute_ndvi red nir = .ok g ∧ g.rows = nir.rows ∧ g.cols = nir.cols ∧
      ∀ i j, i < nir.rows → j < nir.cols →
        g.get i j =
          if fneq0 (fadd (nir.get i j) (red.get i j)) then
            fdivRaw (fsub (nir.get i j) (red.get i j)) (fadd (nir.get i j) (red.get i j))
          else some 0 := by
  have hnum : ewise fsub nir red =
      .ok ((List.range nir.rows).map fun i => (List.range nir.cols).map fun j =>
        fsub (bget nir i j) (bget red i j)) := by
    unfold ewise
    rw [hr, hc, bcDim_self, bcDim_self]
  have hden : ewise fadd nir red =
      .ok ((List.range nir.rows).map fun i => (List.range nir.cols).map fun j =>
        fadd (bget nir i j) (bget red i j)) := by
    unfold ewise
    rw [hr, hc, bcDim_self, bcDim_self]
  set numG : Grid := (List.range nir.rows).map fun i => (List.range nir.cols).map fun j =>
    fsub (bget nir i j) (bget red i j) with hnumG
  set denG : Grid := (List.range nir.rows).map fun i => (List.range nir.cols).map fun j =>
    fadd (bget nir i j) (bget red i j) with hdenG
  have hnr : numG.rows = nir.rows := rangeMap_rows _ _ _
  have hnc : numG.cols = nir.cols := rangeMap_cols _ _ h0
  have hdr : denG.rows = nir.rows := rangeMap_rows _ _ _
  have hdc : denG.cols = nir.cols := rangeMap_cols _ _ h0
  have hzr : (zeros_like nir).rows = nir.rows := by
    unfold zeros_like
    exact rangeMap_rows _ _ (fun _ _ => some 0)
  have hzc : (zeros_like nir).cols = nir.cols := by
    unfold zeros_like
    exact rangeMap_cols _ (fun _ _ => some 0) h0
  set ndG : Grid := (List.range nir.rows).map fun i => (List.range nir.cols).map fun j =>
    if fneq0 (bget denG i j) then fdivRaw (bget numG i j) (bget denG i j)
    else (zeros_like nir).get i j with hndG
  have hdiv : np_divide_out_where numG denG (zeros_like nir) = .ok ndG := by
    unfold np_divide_out_where
    rw [hnr, hdr, hnc, hdc, bcDim_self, bcDim_self, hzr, hzc]
    simp
  refine ⟨ndG, ?_, ?_, ?_, ?_⟩
  · unfold compute_ndvi
    rw [hnum]
    simp only [Bind.bind, Except.bind]
    rw [hden]
    simp only [Except.bind]
    rw [hdiv]
    simp only [Except.bind]
    rw [finiteClean_id]
  · exact rangeMap_rows _ _ _
  · exact rangeMap_cols _ _ h0
  · intro i j hi hj
    have hir : i < red.rows := by rw [hr]; exact hi
    have hjr : j < red.cols := by rw [hc]; exact hj
    rw [hndG, rangeMap_get _ hi hj]
    have hbd : bget denG i j = fadd (nir.get i j) (red.get i j) := by
      rw [bget_eq_get (by rw [hdr]; exact hi) (by rw [hdc]; exact hj), hdenG,
          rangeMap_get _ hi hj, bget_eq_get hi hj, bget_eq_get hir hjr]
    have hbn : bget numG i j = fsub (nir.get i j) (red.get i j) := by
      rw [bget_eq_get (by rw [hnr]; exact hi) (by rw [hnc]; exact hj), hnumG,
          rangeMap_get _ hi hj, bget_eq_get hi hj, bget_eq_get hir hjr]
    have hbz : (zeros_like nir).get i j = some 0 := by
      unfold zeros_like
      exact rangeMap_get (fun _ _ => some 0) hi hj
    rw [hbd, hbn, hbz]

/-! ### Lemmas about fold-based minima and maxima -/

theorem foldl_min_le_init : ∀ (xs : List ℚ) (x : ℚ), xs.foldl Min.min x ≤ x := by
  intro xs
  induction xs with
  | nil => intro x; simp
  | cons a t ih =>
      intro x
      simp only [List.foldl_cons]
      exact le_trans (ih (min x a)) (min_le_left x a)

theorem foldl_min_le_mem {m : ℚ} :
    ∀ (xs : List ℚ) (x : ℚ), m ∈ x :: xs → xs.foldl Min.min x ≤ m := by
  intro xs
  induction xs with
  | nil =>
      intro x hm
      rcases List.mem_singleton.mp hm with rfl
      simp
  | cons a t ih =>
      intro x hm
      simp only [List.foldl_cons]
      rcases List.mem_cons.mp hm with rfl | hm2
      · exact le_trans (foldl_min_le_init t (min m a)) (min_le_left m a)
      · rcases List.mem_cons.mp hm2 with rfl | hm3
        · exact le_trans (foldl_min_le_init t (min x m)) (min_le_right x m)
        · exact ih (min x a) (List.mem_cons_of_mem _ hm3)

theorem le_foldl_min {m : ℚ} :
    ∀ (xs : List ℚ) (x : ℚ), m ≤ x → (∀ v ∈ xs, m ≤ v) → m ≤ xs.foldl Min.min x := by
  intro xs
  induction xs with
  | nil => intro x hx _; simpa using hx
  | cons a t ih =>
      intro x hx hall
      simp only [List.foldl_cons]
      exact ih (min x a) (le_min hx (hall a (by simp))) fun v hv => hall v (by simp [hv])

theorem foldl_min_mem : ∀ (xs : List ℚ) (x : ℚ), xs.foldl Min.min x ∈ x :: xs := by
  intro xs
  induction xs with
  | nil => intro x; simp
  | cons a t ih =>
      intro x
      simp only [List.foldl_cons]
      rcases List.mem_cons.mp (ih (min x a)) with h | h
      · rcases min_choice x a with hmin | hmin <;> rw [h, hmin] <;> simp
      · simp [List.mem_cons_of_mem _ h]

theorem foldl_max_ge_init : ∀ (xs : List ℚ) (x : ℚ), x ≤ xs.foldl Max.max x := by
  intro xs
  induction xs with
  | nil => intro x; simp
  | cons a t ih =>
      intro x
      simp only [List.foldl_cons]
      exact le_trans (le_max_left x a) (ih (max x a))

theorem foldl_max_ge_mem {m : ℚ} :
    ∀ (xs : List ℚ) (x : ℚ), m ∈ x :: xs → m ≤ xs.foldl Max.max x := by
  intro xs
  induction xs with
  | nil =>
      intro x hm
      rcases List.mem_singleton.mp hm with rfl
      simp
  | cons a t ih =>
      intro x hm
      simp only [List.foldl_cons]
      rcases List.mem_cons.mp hm with rfl | hm2
      · exact le_trans (le_max_left m a) (foldl_max_ge_init t (max m a))
      · rcases List.mem_cons.mp hm2 with rfl | hm3
        · exact le_trans (le_max_right x m) (foldl_max_ge_init t (max x m))
        · exact ih (max x a) (List.mem_cons_of_mem _ hm3)

theorem foldl_max_mem : ∀ (xs : List ℚ) (x : ℚ), xs.foldl Max.max x ∈ x :: xs := by
  intro xs
  induction xs with
  | nil => intro x; simp
  | cons a t ih =>
      intro x
      simp only [List.foldl_cons]
      rcases List.mem_cons.mp (ih (max x a)) with h | h
      · rcases max_choice x a with hmax | hmax <;> rw [h, hmax] <;> simp
      · simp [List.mem_cons_of_mem _ h]

theorem compute_statistics_spec {g : Grid} {x : ℚ} {xs : List ℚ}
    (h : validVals g = x :: xs) :
    compute_statistics g =
      .ok ⟨xs.foldl Min.min x, xs.foldl Max.max x,
           (x :: xs).sum / ((x :: xs).length : ℚ)⟩ := by
  unfold compute_statistics
  rw [h]

end SatelliteBasic

namespace SatelliteBasic

/-! ### Lemmas about the storage and retrieval paths -/

theorem pyIndex_ok {b : List ℚ} {i : ℕ} (hi : i < b.length) :
    pyIndex b i = .ok (b.getD i 0) := by
  unfold pyIndex
  rw [List.getD_eq_getElem?_getD, List.getElem?_eq_getElem hi]
  rfl

theorem mkPolygon_ok {b : List ℚ} (hb : 4 ≤ b.length) : mkPolygon b = .ok (polyOf b) := by
  unfold mkPolygon
  simp only [pyIndex_ok (show 0 < b.length by omega), pyIndex_ok (show 1 < b.length by omega),
             pyIndex_ok (show 2 < b.length by omega), pyIndex_ok (show 3 < b.length by omega),
             Bind.bind, Except.bind]
  rfl

/-- The success path of one `_store` attempt: with a database session, a
truthy 4-entry bbox, a truthy name, a grid that survives the
`squeeze`/`ndim` check and whose statistics computation succeeds, the
attempt caches the sentinel-substituted grid and commits one row holding
only the statistics dictionary (no grid). -/
theorem storeAttempt_success {st : SvcState} {recs : List DBRecord} {i : Ident}
    {g : Grid} {md : Metadata} {b : List ℚ} {nm : String} {s : Stats}
    (hdb : st.db = some recs) (hbbox : md.bbox = some b) (hb4 : b.length = 4)
    (hname : md.name = some nm) (hnm : nm.isEmpty = false)
    (hrows : g.rows ≠ 1) (hcols : g.cols ≠ 1)
    (hstats : compute_statistics (nan_to_num g) = .ok s) :
    storeAttempt st i g md =
      ({ analyses := (i, nan_to_num g, md) :: st.analyses,
         db := some (recs ++ [{ id := i, name := nm, bbox := b, geometry := polyOf b,
                                ndvi_stats := statsDict s, red_url := md.red_url,
                                nir_url := md.nir_url }]) },
       .ok i) := by
  have hnd : squeezeNdim g = 2 := by unfold squeezeNdim; split_ifs <;> omega
  have hbe : b.isEmpty = false := by cases b <;> simp_all
  unfold storeAttempt
  rw [hnd, hdb, hbbox, hname]
  simp only [ne_eq, not_true_eq_false, if_false, truthyOptList, truthyOptStr, hbe, hnm,
             Bool.not_false, Bool.and_self, if_true]
  rw [hstats]
  simp only [Option.getD_some]
  rw [mkPolygon_ok (by omega)]

theorem store_analysis_first_ok {st st' : SvcState} {ids : ℕ → Ident} {g : Grid}
    {md : Metadata} {i : Ident}
    (h : storeAttempt st (ids 0) g md = (st', .ok i)) :
    store_analysis st ids g md = (st', .ok i) := by
  unfold store_analysis
  show storeLoop g md ids 3 0 st = (st', .ok i)
  unfold storeLoop
  rw [h]

theorem nan_to_num_validVals (g : Grid) :
    validVals (nan_to_num g) = g.flat.map fun v => v.getD (-9999) := by
  unfold validVals nan_to_num Grid.flat
  induction g with
  | nil => rfl
  | cons row t ih =>
      simp only [List.map_cons, List.foldr_cons, List.filterMap_append, List.map_append, ih]
      congr 1
      rw [List.filterMap_map]
      exact List.filterMap_eq_map _ ▸ rfl

theorem compute_statistics_nan_to_num_ok {g : Grid} (h : g.flat ≠ []) :
    ∃ s : Stats, compute_statistics (nan_to_num g) = .ok s := by
  unfold compute_statistics
  rw [nan_to_num_validVals]
  cases hf : g.flat with
  | nil => exact absurd hf h
  | cons a t => exact ⟨_, rfl⟩

/-- The success path of `store_analysis` as a whole: the first attempt
succeeds, so the retry wrapper returns it unchanged. -/
theorem store_analysis_success {st : SvcState} {recs : List DBRecord} {ids : ℕ → Ident}
    {g : Grid} {md : Metadata} {b : List ℚ} {nm : String}
    (hdb : st.db = some recs) (hbbox : md.bbox = some b) (hb4 : b.length = 4)
    (hname : md.name = some nm) (hnm : nm.isEmpty = false)
    (hrows : g.rows ≠ 1) (hcols : g.cols ≠ 1) (hflat : g.flat ≠ []) :
    ∃ s : Stats, compute_statistics (nan_to_num g) = .ok s ∧
      store_analysis st ids g md =
        ({ analyses := (ids 0, nan_to_num g, md) :: st.analyses,
           db := some (recs ++ [{ id := ids 0, name := nm, bbox := b, geometry := polyOf b,
                                  ndvi_stats := statsDict s, red_url := md.red_url,
                                  nir_url := md.nir_url }]) },
         .ok (ids 0)) := by
  obtain ⟨s, hs⟩ := compute_statistics_nan_to_num_ok hflat
  exact ⟨s, hs, store_analysis_first_ok
    (storeAttempt_success hdb hbbox hb4 hname hnm hrows hcols hs)⟩

/-- The reconstruction step of the database path of `get_analysis` fails
with `ValueError` on every statistics dictionary: whether or not the key
"ndvi_array" is present, the resulting array is not 2-dimensional. -/
theorem reconstructGrid_err (stats : List (String × ℚ)) :
    reconstructGrid stats = .error .valueError := by
  unfold reconstructGrid
  cases lookupKey stats "ndvi_array" <;> rfl

theorem get_analysis_cache_hit {st : SvcState} {i : Ident} {g : Grid} {md : Metadata}
    (h : lookupCache st i = some (g, md)) :
    get_analysis st i = .ok (some (.fromCache g md)) := by
  unfold get_analysis
  rw [h]

theorem get_analysis_miss_nodb {st : SvcState} {i : Ident}
    (hc : lookupCache st i = none) (hdb : st.db = none) :
    get_analysis st i = .ok none := by
  unfold get_analysis
  rw [hc, hdb]

theorem get_analysis_miss_db {st : SvcState} {i : Ident} {recs : List DBRecord}
    (hc : lookupCache st i = none) (hdb : st.db = some recs)
    (hr : lookupDb recs i = none) :
    get_analysis st i = .ok none := by
  unfold get_analysis
  simp only [hc, hdb, hr]

theorem get_analysis_db_hit_raises {st : SvcState} {i : Ident} {recs : List DBRecord}
    {r : DBRecord}
    (hc : lookupCache st i = none) (hdb : st.db = some recs)
    (hr : lookupDb recs i = some r) :
    get_analysis st i = .error .valueError := by
  unfold get_analysis
  simp only [hc, hdb, hr, reconstructGrid_err]

theorem lookupDb_append_fresh {recs : List DBRecord} {r : DBRecord} {i : Ident}
    (h : lookupDb recs i = none) (hid : r.id = i) :
    lookupDb (recs ++ [r]) i = some r := by
  unfold lookupDb at *
  induction recs with
  | nil => simp [hid]
  | cons a t ih =>
      simp only [List.find?_cons] at h ⊢
      cases hpa : (a.id == i) with
      | true => rw [hpa] at h; exact absurd h (by simp)
      | false =>
          rw [hpa] at h
          simp only [List.cons_append, List.find?_cons, hpa]
          exact ih h

/-- Storing an index grid and then retrieving its identifier through the
durable path alone (empty cache, simulating a process restart) always
raises `ValueError`: the committed row's statistics dictionary has no
"ndvi_array" entry, so the reconstruction fails the 2-dimensional check. -/
theorem store_then_durable_get_raises {st : SvcState} {recs : List DBRecord}
    {ids : ℕ → Ident} {g : Grid} {md : Metadata} {b : List ℚ} {nm : String}
    (hdb : st.db = some recs) (hbbox : md.bbox = some b) (hb4 : b.length = 4)
    (hname : md.name = some nm) (hnm : nm.isEmpty = false)
    (hrows : g.rows ≠ 1) (hcols : g.cols ≠ 1) (hflat : g.flat ≠ [])
    (hfresh : lookupDb recs (ids 0) = none) :
    get_analysis { analyses := [], db := (store_analysis st ids g md).1.db } (ids 0) =
      .error .valueError := by
  obtain ⟨s, _, hstore⟩ :=
    @store_analysis_success st recs ids g md b nm hdb hbbox hb4 hname hnm hrows hcols hflat
  rw [hstore]
  exact get_analysis_db_hit_raises rfl rfl (lookupDb_append_fresh hfresh rfl)

end SatelliteBasic

namespace SatelliteBasic

/-! ### Claim C1 — shape validation -/

/-- C1, counterexample: the claim "every pair of input grids whose shapes
differ fails with a ShapeMismatchError and never proceeds by broadcasting"
is false: a 1×2 red band and a 2×2 NIR band differ in shape, yet
`compute_ndvi` silently proceeds by broadcasting the red band and returns
a 2×2 index grid. -/
theorem C1_counterexample :
    Grid.rows exRed1x2 ≠ Grid.rows exNir2x2 ∧
    compute_ndvi exRed1x2 exNir2x2 =
      .ok [[some (1/2), some (1/2)], [some (1/2), some (1/2)]] := by
  constructor
  · decide
  · simp [compute_ndvi, ewise, bcDim, bget, Grid.rows, Grid.cols, Grid.get, zeros_like,
          np_divide_out_where, fneq0, fadd, fsub, fdivRaw, finiteClean, List.range_succ,
          Bind.bind, Except.bind, exRed1x2, exNir2x2]
    norm_num

/-- C1, amended: `compute_ndvi` performs no explicit shape validation.
When the two grids' shapes are not broadcast-compatible (e.g. 10×10 vs
10×11), the element-wise subtraction raises NumPy's generic `ValueError`,
not a `ShapeMismatchError`; broadcast-compatible differing shapes proceed
silently (see the counterexample). -/
theorem C1_theorem {red nir : Grid}
    (h : bcDim red.rows nir.rows = none ∨ bcDim red.cols nir.cols = none) :
    compute_ndvi red nir = .error .valueError := by
  have h2 : bcDim nir.rows red.rows = none ∨ bcDim nir.cols red.cols = none := by
    rcases h with h | h
    · exact Or.inl (bcDim_symm_none h)
    · exact Or.inr (bcDim_symm_none h)
  unfold compute_ndvi
  rw [ewise_error fsub h2]
  rfl

/-- C1, witness: the spec's own example, a 10×10 red band against a 10×11
NIR band, fails with the generic `ValueError`. -/
theorem C1_witness : compute_ndvi exRed10x10 exNir10x11 = .error .valueError :=
  C1_theorem (Or.inr (by decide))

/-! ### Claim C2 — no positivity masking -/

/-- C2, counterexample: the claim "red ≤ 0 or NIR ≤ 0 makes the output
pixel invalid, not the raw division result" is false at red = 0, NIR = 5:
the output pixel is the valid raw quotient 1, not a NaN marker. -/
theorem C2_counterexample :
    compute_ndvi exRedZero exNirFive = .ok [[some 1]] ∧ (some (1:ℚ) : FVal) ≠ none := by
  constructor
  · simp [compute_ndvi, ewise, bcDim, bget, Grid.rows, Grid.cols, Grid.get, zeros_like,
          np_divide_out_where, fneq0, fadd, fsub, fdivRaw, finiteClean, List.range_succ,
          Bind.bind, Except.bind, exRedZero, exNirFive]
  · simp

/-- C2, amended: `compute_ndvi` applies no positivity masking: at every
pixel where the denominator NIR+red is nonzero — including pixels with
red ≤ 0 or NIR ≤ 0 — the output is the valid raw quotient
(NIR−red)/(NIR+red), never an invalid marker. -/
theorem C2_theorem {red nir : Grid} {i j : ℕ} {r n : ℚ}
    (hr : red.rows = nir.rows) (hc : red.cols = nir.cols) (h0 : 0 < nir.rows)
    (hi : i < nir.rows) (hj : j < nir.cols)
    (hred : red.get i j = some r) (hnir : nir.get i j = some n)
    (_hsign : r ≤ 0 ∨ n ≤ 0) (hden : n + r ≠ 0) :
    ∃ g : Grid, compute_ndvi red nir = .ok g ∧
      g.get i j = some ((n - r) / (n + r)) := by
  obtain ⟨g, hok, _, _, hpix⟩ := compute_ndvi_pix hr hc h0
  refine ⟨g, hok, ?_⟩
  rw [hpix i j hi hj, hred, hnir]
  simp [fadd, fsub, fdivRaw, fneq0, hden]

/-- C2, witness: at red = 0 (≤ 0), NIR = 5, the output pixel is the raw
quotient (5−0)/(5+0). -/
theorem C2_witness :
    ∃ g : Grid, compute_ndvi exRedZero exNirFive = .ok g ∧
      g.get 0 0 = some ((5 - 0) / (5 + 0)) := by
  refine @C2_theorem exRedZero exNirFive 0 0 0 5 rfl rfl ?_ ?_ ?_ ?_ ?_ ?_ ?_
  · norm_num [exNirFive, Grid.rows]
  · norm_num [exNirFive, Grid.rows]
  · norm_num [exNirFive, Grid.cols]
  · norm_num [exRedZero, Grid.get]
  · norm_num [exNirFive, Grid.get]
  · exact Or.inl (le_refl 0)
  · norm_num

/-! ### Claim C3 — zero denominator -/

/-- C3, counterexample: the claim "a pixel with NIR+red = 0 gets an
invalid (NaN) value" is false at red = 3, NIR = -3: the output pixel is
the valid value 0 (taken from the `out=np.zeros_like` array), not a NaN
marker. -/
theorem C3_counterexample :
    compute_ndvi exRedThree exNirNeg3 = .ok [[some 0]] ∧ (some (0:ℚ) : FVal) ≠ none := by
  constructor
  · simp [compute_ndvi, ewise, bcDim, bget, Grid.rows, Grid.cols, Grid.get, zeros_like,
          np_divide_out_where, fneq0, fadd, fsub, fdivRaw, finiteClean, List.range_succ,
          Bind.bind, Except.bind, exRedThree, exNirNeg3]
  · simp

/-- C3, amended: at every pixel where NIR+red is exactly zero the output
is the valid value 0 (the `out`-array zero guarded by the `where=` mask),
not an invalid marker; the computation returns normally and never raises a
division-by-zero error. -/
theorem C3_theorem {red nir : Grid} {i j : ℕ} {r n : ℚ}
    (hr : red.rows = nir.rows) (hc : red.cols = nir.cols) (h0 : 0 < nir.rows)
    (hi : i < nir.rows) (hj : j < nir.cols)
    (hred : red.get i j = some r) (hnir : nir.get i j = some n)
    (hzero : n + r = 0) :
    ∃ g : Grid, compute_ndvi red nir = .ok g ∧ g.get i j = some 0 := by
  obtain ⟨g, hok, _, _, hpix⟩ := compute_ndvi_pix hr hc h0
  refine ⟨g, hok, ?_⟩
  rw [hpix i j hi hj, hred, hnir]
  simp [fadd, fneq0, hzero]

/-- C3, witness: at red = 3, NIR = -3 the denominator is exactly zero and
the output pixel is the valid value 0; no error is raised. -/
theorem C3_witness :
    ∃ g : Grid, compute_ndvi exRedThree exNirNeg3 = .ok g ∧ g.get 0 0 = some 0 := by
  refine @C3_theorem exRedThree exNirNeg3 0 0 3 (-3) rfl rfl ?_ ?_ ?_ ?_ ?_ ?_
  · norm_num [exNirNeg3, Grid.rows]
  · norm_num [exNirNeg3, Grid.rows]
  · norm_num [exNirNeg3, Grid.cols]
  · norm_num [exRedThree, Grid.get]
  · norm_num [exNirNeg3, Grid.get]
  · norm_num

/-! ### Claim C4 — bounds on positive inputs -/

/-- C4: for equal-shape grids whose values are all strictly positive (and
finite, which every rational model value is), `compute_ndvi` succeeds and
every pixel equals (NIR−red)/(NIR+red) and lies in the closed interval
[-1, 1]. -/
theorem C4_theorem {red nir : Grid}
    (hr : red.rows = nir.rows) (hc : red.cols = nir.cols) (h0 : 0 < nir.rows)
    (hpos : ∀ i j, i < nir.rows → j < nir.cols →
      ∃ r n : ℚ, red.get i j = some r ∧ nir.get i j = some n ∧ 0 < r ∧ 0 < n) :
    ∃ g : Grid, compute_ndvi red nir = .ok g ∧
      ∀ i j, i < nir.rows → j < nir.cols →
        ∃ r n : ℚ, red.get i j = some r ∧ nir.get i j = some n ∧
          g.get i j = some ((n - r) / (n + r)) ∧
          -1 ≤ (n - r) / (n + r) ∧ (n - r) / (n + r) ≤ 1 := by
  obtain ⟨g, hok, _, _, hpix⟩ := compute_ndvi_pix hr hc h0
  refine ⟨g, hok, fun i j hi hj => ?_⟩
  obtain ⟨r, n, hred, hnir, hrpos, hnpos⟩ := hpos i j hi hj
  have hd : 0 < n + r := by linarith
  refine ⟨r, n, hred, hnir, ?_, ?_, ?_⟩
  · rw [hpix i j hi hj, hred, hnir]
    simp [fadd, fsub, fdivRaw, fneq0, ne_of_gt hd]
  · exact (le_div_iff₀ hd).mpr (by linarith)
  · exact (div_le_one hd).mpr (by linarith)

/-- C4, witness: the spec's concrete scenario red = 100, NIR = 300
everywhere on a 2×2 grid: every pixel is (300−100)/(300+100) = 1/2 and
lies in [-1, 1]. -/
theorem C4_witness :
    ∃ g : Grid, compute_ndvi exRed100 exNir300 = .ok g ∧
      ∀ i j, i < Grid.rows exNir300 → j < Grid.cols exNir300 →
        ∃ r n : ℚ, Grid.get exRed100 i j = some r ∧ Grid.get exNir300 i j = some n ∧
          g.get i j = some ((n - r) / (n + r)) ∧
          -1 ≤ (n - r) / (n + r) ∧ (n - r) / (n + r) ≤ 1 := by
  refine C4_theorem rfl rfl ?_ ?_
  · norm_num [exNir300, Grid.rows]
  · intro i j hi hj
    have hi2 : i < 2 := by simpa [exNir300, Grid.rows] using hi
    have hj2 : j < 2 := by simpa [exNir300, Grid.cols] using hj
    have hii : i = 0 ∨ i = 1 := by omega
    have hjj : j = 0 ∨ j = 1 := by omega
    refine ⟨100, 300, ?_, ?_, by norm_num, by norm_num⟩
    · rcases hii with rfl | rfl <;> rcases hjj with rfl | rfl <;> rfl
    · rcases hii with rfl | rfl <;> rcases hjj with rfl | rfl <;> rfl

end SatelliteBasic

namespace SatelliteBasic

/-! ### Claim C5 — statistics on empty and non-empty valid sets -/

/-- C5, counterexample: on an all-invalid grid the statistics computation
raises the generic `ValueError` coming from NumPy's zero-size reduction
(logged and re-raised by the source), not an explicit `EmptyDataError`;
the repository defines no such class. -/
theorem C5_counterexample :
    compute_statistics exAllNaN = .error .valueError ∧
    PyExc.valueError ≠ PyExc.emptyDataError := ⟨rfl, by decide⟩

/-- C5, amended: with zero valid pixels `compute_statistics` raises an
error (NumPy's `ValueError` from the empty reduction) rather than
returning NaN-valued or sentinel statistics, though not the
`EmptyDataError` the spec names; with at least one valid pixel it returns
min/max/mean computed over exactly the valid pixels. -/
theorem C5_theorem :
    (∀ g : Grid, validVals g = [] → compute_statistics g = .error .valueError) ∧
    (∀ (g : Grid) (x : ℚ) (xs : List ℚ), validVals g = x :: xs →
      ∃ s : Stats, compute_statistics g = .ok s ∧ s.min ∈ x :: xs ∧ s.max ∈ x :: xs ∧
        (∀ v ∈ x :: xs, s.min ≤ v ∧ v ≤ s.max) ∧
        s.mean = (x :: xs).sum / ((x :: xs).length : ℚ)) := by
  constructor
  · intro g h
    unfold compute_statistics
    rw [h]
  · intro g x xs h
    refine ⟨_, compute_statistics_spec h, foldl_min_mem xs x, foldl_max_mem xs x, ?_, rfl⟩
    intro v hv
    exact ⟨foldl_min_le_mem xs x hv, foldl_max_ge_mem xs x hv⟩

/-- C5, witness: the all-invalid 2×2 grid errors, and the mixed grid with
valid pixels 1, 0, 1 yields statistics attained on and bounding exactly
those valid values, with mean their exact average. -/
theorem C5_witness :
    compute_statistics exAllNaN = .error .valueError ∧
    ∃ s : Stats, compute_statistics exMixed = .ok s ∧
      s.min ∈ [(1:ℚ), 0, 1] ∧ s.max ∈ [(1:ℚ), 0, 1] ∧
      (∀ v ∈ [(1:ℚ), 0, 1], s.min ≤ v ∧ v ≤ s.max) ∧
      s.mean = ([(1:ℚ), 0, 1]).sum / (([(1:ℚ), 0, 1]).length : ℚ) :=
  ⟨C5_theorem.1 exAllNaN rfl, C5_theorem.2 exMixed 1 [0, 1] rfl⟩

/-! ### Claim C6 — what `store_analysis` persists -/

/-- C6, counterexample: the claim "the persisted record contains a
downsampled grid with invalid markers replaced by an explicit null
representation (not a numeric sentinel)" is false: storing a 2×2 grid
with one invalid pixel persists a record holding only the statistics
dictionary — no grid of any resolution — and the invalid pixel enters
both the cached grid and the persisted minimum as the numeric sentinel
-9999. -/
theorem C6_counterexample :
    store_analysis emptySvc idsEx gStore mdEx =
      ({ analyses := [(100, [[some (1/2), some (-9999)], [some (1/2), some (1/2)]], mdEx)],
         db := some [{ id := 100, name := "a", bbox := [0, 0, 1, 1],
                       geometry := [(0, 0), (1, 0), (1, 1), (0, 1), (0, 0)],
                       ndvi_stats := [("min", -9999), ("max", 1/2), ("mean", -19995/8)],
                       red_url := none, nir_url := none }] },
       .ok 100) ∧
    Grid.get (nan_to_num gStore) 0 1 = some (-9999) := by
  constructor
  · simp [store_analysis, storeLoop, storeAttempt, squeezeNdim, nan_to_num, compute_statistics,
          validVals, Grid.flat, statsDict, mkPolygon, pyIndex, truthyOptList, truthyOptStr,
          Grid.rows, Grid.cols, emptySvc, idsEx, gStore, mdEx, Bind.bind, Except.bind,
          show "a".isEmpty = false from rfl]
    norm_num
  · simp [nan_to_num, gStore, Grid.get]

/-- C6, amended: a successful `store_analysis` performs no downsampling
and persists no grid at all: the durable record holds {identifier, name,
bbox, geometry, statistics, source URLs}, where the statistics are
computed from the full grid after every invalid pixel is replaced by the
numeric sentinel -9999; the sentinel-substituted full-resolution grid is
kept only in the volatile in-memory cache. -/
theorem C6_theorem {st : SvcState} {recs : List DBRecord} {ids : ℕ → Ident}
    {g : Grid} {md : Metadata} {b : List ℚ} {nm : String}
    (hdb : st.db = some recs) (hbbox : md.bbox = some b) (hb4 : b.length = 4)
    (hname : md.name = some nm) (hnm : nm.isEmpty = false)
    (hrows : g.rows ≠ 1) (hcols : g.cols ≠ 1) (hflat : g.flat ≠ []) :
    ∃ s : Stats, compute_statistics (nan_to_num g) = .ok s ∧
      store_analysis st ids g md =
        ({ analyses := (ids 0, nan_to_num g, md) :: st.analyses,
           db := some (recs ++ [{ id := ids 0, name := nm, bbox := b, geometry := polyOf b,
                                  ndvi_stats := statsDict s, red_url := md.red_url,
                                  nir_url := md.nir_url }]) },
         .ok (ids 0)) :=
  store_analysis_success hdb hbbox hb4 hname hnm hrows hcols hflat

/-- C6, witness: storing the NaN-free 2×2 grid `gStoreW` caches it
unchanged up to the (here vacuous) sentinel substitution and commits one
row holding its statistics dictionary and metadata. -/
theorem C6_witness :
    ∃ s : Stats, compute_statistics (nan_to_num gStoreW) = .ok s ∧
      store_analysis emptySvc idsEx gStoreW mdEx =
        ({ analyses := [(idsEx 0, nan_to_num gStoreW, mdEx)],
           db := some [{ id := idsEx 0, name := "a", bbox := [0, 0, 1, 1],
                         geometry := polyOf [0, 0, 1, 1],
                         ndvi_stats := statsDict s, red_url := none, nir_url := none }] },
         .ok (idsEx 0)) :=
  @C6_theorem emptySvc [] idsEx gStoreW mdEx [0, 0, 1, 1] "a"
    rfl rfl (by decide) rfl rfl (by decide) (by decide) (by decide)

/-! ### Claim C7 — round-trip through the durable path -/

/-- C7: storing the 2×2 grid `gStore` and then retrieving its identifier
through the durable path alone (empty cache, simulating the loss of the
volatile cache on restart) does not yield any record or statistics: it
raises `ValueError`, because the committed row's `ndvi_stats` dictionary
holds only min/max/mean and no "ndvi_array" entry, so `get_analysis`'s
reconstruction of a grid from the default empty list fails its
2-dimensional check.  This refutes the round-trip claim at this concrete
input: the store path ("store only statistics in database") and the
retrieval path (which expects the grid inside the statistics JSON)
contradict each other. -/
theorem C7_theorem :
    get_analysis { analyses := [], db := (store_analysis emptySvc idsEx gStore mdEx).1.db }
        100 =
      .error .valueError :=
  @store_then_durable_get_raises emptySvc [] idsEx gStore mdEx [0, 0, 1, 1] "a"
    rfl rfl (by decide) rfl rfl (by decide) (by decide) (by decide) rfl

/-! ### Claim C8 — retrieval order and not-found behaviour -/

/-- C8, counterexample: the claim "if the identifier is absent from the
cache, retrieval queries durable storage and returns the reconstructed
record if found" is false: for state `stDb2`, whose durable table holds a
row under identifier 9 shaped exactly like those `store_analysis` writes,
retrieval of 9 raises `ValueError` instead of returning a record. -/
theorem C8_counterexample : get_analysis stDb2 9 = .error .valueError := by
  simp [get_analysis, lookupCache, lookupDb, reconstructGrid, lookupKey,
        stDb2, recDb2]

/-- C8, amended: `get_analysis` checks the volatile cache first and, on a
hit, returns the full-resolution cached entry; if the identifier is in
neither the cache nor durable storage (or no database session exists) it
returns the not-found signal `None` without raising; but when the
identifier is found only in durable storage, reconstruction always raises
`ValueError` instead of returning a record. -/
theorem C8_theorem :
    (∀ (st : SvcState) (i : Ident) (g : Grid) (md : Metadata),
      lookupCache st i = some (g, md) →
        get_analysis st i = .ok (some (.fromCache g md))) ∧
    (∀ (st : SvcState) (i : Ident), lookupCache st i = none → st.db = none →
      get_analysis st i = .ok none) ∧
    (∀ (st : SvcState) (i : Ident) (recs : List DBRecord), lookupCache st i = none →
      st.db = some recs → lookupDb recs i = none → get_analysis st i = .ok none) ∧
    (∀ (st : SvcState) (i : Ident) (recs : List DBRecord) (r : DBRecord),
      lookupCache st i = none → st.db = some recs → lookupDb recs i = some r →
        get_analysis st i = .error .valueError) :=
  ⟨fun _ _ _ _ h => get_analysis_cache_hit h,
   fun _ _ hc hdb => get_analysis_miss_nodb hc hdb,
   fun _ _ _ hc hdb hr => get_analysis_miss_db hc hdb hr,
   fun _ _ _ _ hc hdb hr => get_analysis_db_hit_raises hc hdb hr⟩

/-- C8, witness: a cache hit returns the cached full-resolution entry; a
miss with no session and a miss against a durable table without the
identifier both return `None` without raising; a durable-only hit raises. -/
theorem C8_witness :
    get_analysis stCache 5 = .ok (some (.fromCache gStoreW mdEx)) ∧
    get_analysis { analyses := [], db := none } 5 = .ok none ∧
    get_analysis stDbOnly 5 = .ok none ∧
    get_analysis stDbOnly 7 = .error .valueError :=
  ⟨C8_theorem.1 stCache 5 gStoreW mdEx rfl,
   C8_theorem.2.1 { analyses := [], db := none } 5 rfl rfl,
   C8_theorem.2.2.1 stDbOnly 5 [recDb] rfl rfl rfl,
   C8_theorem.2.2.2 stDbOnly 7 [recDb] recDb rfl rfl rfl⟩

/-! ### Claim C9 — retry policy -/

/-- C9, counterexample: the claim "durable writes are retried only for
transient failures" is false: an operation failing with the non-transient
input-validation `ValueError` is still attempted 3 times (with two
rollbacks and two fixed-delay sleeps), not abandoned after 1 attempt. -/
theorem C9_counterexample :
    execute_with_retry opValueErr true =
      { result := .error .valueError, attempts := 3, rollbacks := 2, sleeps := [1, 1] } ∧
    (3 : ℕ) ≠ 1 := by
  constructor
  · simp [execute_with_retry, max_retries, retryGo, opValueErr, retry_delay]
  · decide

/-- C9, amended: `_execute_with_retry` attempts the operation at most 3
times with a fixed backoff of 1 between attempts; every exception — not
only transient ones — triggers a retry, with the session rolled back
before each retry when a database session exists; the final attempt's
failure is surfaced to the caller; an immediate success is returned after
one attempt with no rollback. -/
theorem C9_theorem {α : Type} (op : ℕ → Except PyExc α) (hasDb : Bool) :
    (execute_with_retry op hasDb).attempts ≤ 3 ∧
    (∀ a, op 0 = .ok a → execute_with_retry op hasDb =
        { result := .ok a, attempts := 1, rollbacks := 0, sleeps := [] }) ∧
    ((∀ k, ∃ e, op k = .error e) →
      ∃ e₂, op 2 = .error e₂ ∧
        execute_with_retry op hasDb =
          { result := .error e₂, attempts := 3,
            rollbacks := if hasDb then 2 else 0,
            sleeps := [retry_delay, retry_delay] }) := by
  refine ⟨?_, ?_, ?_⟩
  · rcases h0 : op 0 with e0 | a0
    · rcases h1 : op 1 with e1 | a1
      · rcases h2 : op 2 with e2 | a2 <;>
          simp [execute_with_retry, max_retries, retryGo, h0, h1, h2]
      · simp [execute_with_retry, max_retries, retryGo, h0, h1]
    · simp [execute_with_retry, max_retries, retryGo, h0]
  · intro a h0
    simp [execute_with_retry, max_retries, retryGo, h0]
  · intro hall
    obtain ⟨e0, h0⟩ := hall 0
    obtain ⟨e1, h1⟩ := hall 1
    obtain ⟨e2, h2⟩ := hall 2
    refine ⟨e2, h2, ?_⟩
    cases hasDb <;> simp [execute_with_retry, max_retries, retryGo, h0, h1, h2]

/-- C9, witness: an operation failing every attempt with a transient
connection error exhausts exactly 3 attempts with two rollbacks and two
unit sleeps, and the final failure is surfaced. -/
theorem C9_witness :
    (execute_with_retry opConnFail true).attempts ≤ 3 ∧
    ∃ e₂, opConnFail 2 = .error e₂ ∧
      execute_with_retry opConnFail true =
        { result := .error e₂, attempts := 3, rollbacks := 2,
          sleeps := [retry_delay, retry_delay] } :=
  ⟨(C9_theorem opConnFail true).1,
   (C9_theorem opConnFail true).2.2 fun _ => ⟨.connectionError, rfl⟩⟩

/-! ### Claim C10 — the sentinel substitution in `store_analysis` -/

/-- C10, counterexample: the claim "for every grid with an invalid pixel
the persisted min statistic equals -9999" is false: storing `gBig`, which
holds the value -20000 next to an invalid pixel, persists min = -20000
(the sentinel substitution still happens, but -20000 undercuts it). -/
theorem C10_counterexample :
    store_analysis emptySvc idsEx gBig mdEx =
      ({ analyses := [(100, [[some (-20000), some (-9999)], [some 0, some 0]], mdEx)],
         db := some [{ id := 100, name := "a", bbox := [0, 0, 1, 1],
                       geometry := [(0, 0), (1, 0), (1, 1), (0, 1), (0, 0)],
                       ndvi_stats := [("min", -20000), ("max", 0), ("mean", -29999/4)],
                       red_url := none, nir_url := none }] },
       .ok 100) ∧
    (-20000 : ℚ) ≠ -9999 := by
  constructor
  · simp [store_analysis, storeLoop, storeAttempt, squeezeNdim, nan_to_num, compute_statistics,
          validVals, Grid.flat, statsDict, mkPolygon, pyIndex, truthyOptList, truthyOptStr,
          Grid.rows, Grid.cols, emptySvc, idsEx, gBig, mdEx, Bind.bind, Except.bind,
          show "a".isEmpty = false from rfl]
    norm_num
  · norm_num

/-- C10, amended: `store_analysis` replaces every invalid pixel with the
numeric sentinel -9999 before the cache insertion and before the
statistics computation, so the cached grid is the sentinel-substituted
one and — provided every finite pixel value is at least -9999, as every
genuine index value in [-1, 1] is — the persisted min statistic equals
exactly -9999 whenever at least one pixel was invalid. -/
theorem C10_theorem {st : SvcState} {recs : List DBRecord} {ids : ℕ → Ident}
    {g : Grid} {md : Metadata} {b : List ℚ} {nm : String}
    (hdb : st.db = some recs) (hbbox : md.bbox = some b) (hb4 : b.length = 4)
    (hname : md.name = some nm) (hnm : nm.isEmpty = false)
    (hrows : g.rows ≠ 1) (hcols : g.cols ≠ 1)
    (hinv : none ∈ g.flat)
    (hlb : ∀ q : ℚ, some q ∈ g.flat → -9999 ≤ q) :
    ∃ s : Stats, compute_statistics (nan_to_num g) = .ok s ∧ s.min = -9999 ∧
      store_analysis st ids g md =
        ({ analyses := (ids 0, nan_to_num g, md) :: st.analyses,
           db := some (recs ++ [{ id := ids 0, name := nm, bbox := b, geometry := polyOf b,
                                  ndvi_stats := statsDict s, red_url := md.red_url,
                                  nir_url := md.nir_url }]) },
         .ok (ids 0)) := by
  have hflat : g.flat ≠ [] := by
    intro h
    rw [h] at hinv
    simp at hinv
  obtain ⟨s, hs, hstore⟩ :=
    @store_analysis_success st recs ids g md b nm hdb hbbox hb4 hname hnm hrows hcols hflat
  refine ⟨s, hs, ?_, hstore⟩
  have hv := nan_to_num_validVals g
  cases hfl : (g.flat.map fun v => v.getD (-9999)) with
  | nil => exact absurd (List.map_eq_nil_iff.mp hfl) hflat
  | cons x xs =>
      have hvx : validVals (nan_to_num g) = x :: xs := by rw [hv, hfl]
      have hspec := compute_statistics_spec hvx
      rw [hs] at hspec
      have hsval := (Except.ok.injEq _ _).mp hspec
      have hmem : (-9999 : ℚ) ∈ x :: xs := by
        rw [← hfl]
        exact List.mem_map.mpr ⟨none, hinv, rfl⟩
      have hbound : ∀ v ∈ x :: xs, (-9999 : ℚ) ≤ v := by
        rw [← hfl]
        intro v hv2
        obtain ⟨w, hw, rfl⟩ := List.mem_map.mp hv2
        cases w with
        | none => simp
        | some q => simpa using hlb q hw
      rw [hsval]
      exact le_antisymm (foldl_min_le_mem xs x hmem)
        (le_foldl_min xs x (hbound x (by simp)) fun v hv2 => hbound v (by simp [hv2]))

/-- C10, witness: storing `gStore` (values 1/2 and one invalid pixel)
caches the sentinel-substituted grid and persists min = -9999. -/
theorem C10_witness :
    ∃ s : Stats, compute_statistics (nan_to_num gStore) = .ok s ∧ s.min = -9999 ∧
      store_analysis emptySvc idsEx gStore mdEx =
        ({ analyses := [(idsEx 0, nan_to_num gStore, mdEx)],
           db := some [{ id := idsEx 0, name := "a", bbox := [0, 0, 1, 1],
                         geometry := polyOf [0, 0, 1, 1], ndvi_stats := statsDict s,
                         red_url := none, nir_url := none }] },
         .ok (idsEx 0)) :=
  @C10_theorem emptySvc [] idsEx gStore mdEx [0, 0, 1, 1] "a"
    rfl rfl (by decide) rfl rfl (by decide) (by decide) (by decide)
    (by intro q hq; simp [gStore, Grid.flat] at hq; rcases hq with rfl | rfl | rfl; norm_num)

end SatelliteBasic
